import Mathlib

/-!
Verification development for the pod-gen repository: a shallow embedding of
the request-orchestration layer (retry, timeout, error classification), the
speech request construction, the WAV encoder round-trip, the playback
transport and the generation driver, with theorems settling the stated
properties of each piece.
-/

/-- MAX_RETRIES from src/services/geminiService.ts. -/
def MAX_RETRIES : Nat := 3

/-- INITIAL_DELAY_MS from src/services/geminiService.ts. -/
def INITIAL_DELAY_MS : Nat := 1000

/-- REQUEST_TIMEOUT_MS from src/services/geminiService.ts (60 seconds). -/
def REQUEST_TIMEOUT_MS : Nat := 60000

/-- A failure observation: the fields of a thrown error object that the
classifier reads (err.status, err.code, err.message). An absent message is
collapsed to the empty string, as the source does with a falsy message. -/
structure ErrObs where
  status : Option Nat
  code : Option Nat
  message : String
deriving DecidableEq

/-- JavaScript truthiness-based fallback on numbers: a present, nonzero
value wins, otherwise the second operand (models err.status followed by
err.code under a falsy-or chain). -/
def jsOrNum : Option Nat → Option Nat → Option Nat
  | some 0, b => b
  | none, b => b
  | some n, _ => some n

/-- The numeric status the classifier acts on: err.status with err.code as
the falsy fallback. -/
def effStatus (e : ErrObs) : Option Nat := jsOrNum e.status e.code

/-- Lowercasing as a character map (String.prototype.toLowerCase on the
ASCII range). -/
def strToLower (s : String) : String := String.mk (s.data.map Char.toLower)

/-- Whitespace trimming as a character-list operation
(String.prototype.trim). -/
def strTrim (s : String) : String :=
  String.mk (((s.data.dropWhile Char.isWhitespace).reverse.dropWhile
    Char.isWhitespace).reverse)

/-- Occurrence search: pat occurs as a contiguous run inside l. -/
def infixSearch (pat : List Char) : List Char → Bool
  | [] => pat.isEmpty
  | c :: rest => pat.isPrefixOf (c :: rest) || infixSearch pat rest

/-- Substring test: pat occurs inside s (String.prototype.includes). -/
def strContains (s pat : String) : Bool := infixSearch pat.data s.data

/-- isRetryableError from src/services/geminiService.ts: transient status
codes, timeout wording, network wording, or an empty-result wording are
retryable; everything else is not. -/
def isRetryableError (e : ErrObs) : Bool :=
  let message := strToLower e.message
  let status := effStatus e
  if status = some 429 ∨ status = some 500 ∨ status = some 502 ∨
      status = some 503 ∨ status = some 504 then true
  else if strContains message "timeout" || strContains message "timed out" then true
  else if strContains message "network" || strContains message "fetch failed" ||
      strContains message "econnreset" then true
  else if strContains message "no audio data" then true
  else false

/-- What one run of the retry wrapper did: the surfaced result (error none
models the impossible throw of a null lastError when the loop never ran),
the number of calls issued, and the sleeps performed between attempts. -/
structure RetryOutcome (α : Type) where
  result : Except (Option ErrObs) α
  attemptsMade : Nat
  delays : List Nat

/-- The retry loop of withRetry, parametrized by the 1-based attempt number
and the remaining attempt budget (remaining = maxRetries - attempt + 1, so
the source condition attempt = maxRetries is remaining = 1). fn gives the
outcome of each attempt. -/
def withRetryGo (fn : Nat → Except ErrObs α) (attempt : Nat) : Nat → RetryOutcome α
  | 0 => ⟨Except.error none, 0, []⟩
  | remaining + 1 =>
    match fn attempt with
    | Except.ok a => ⟨Except.ok a, 1, []⟩
    | Except.error e =>
      if remaining = 0 ∨ isRetryableError e = false then
        ⟨Except.error (some e), 1, []⟩
      else
        let rest := withRetryGo fn (attempt + 1) remaining
        ⟨rest.result, rest.attemptsMade + 1,
          INITIAL_DELAY_MS * 2 ^ (attempt - 1) :: rest.delays⟩

/-- withRetry from src/services/geminiService.ts: run the attempts from
attempt 1 with the given total budget (3 by default). -/
def withRetry (fn : Nat → Except ErrObs α) (maxRetries : Nat := MAX_RETRIES) :
    RetryOutcome α :=
  withRetryGo fn 1 maxRetries

/-- One safety rating carried by a blocked candidate. -/
structure SafetyRating where
  category : String
  blocked : Bool
deriving DecidableEq

/-- One part of a candidate content: its text and the inlineData.data
payload, when present. -/
structure ContentPart where
  text : Option String
  inlineDataData : Option String
deriving DecidableEq

/-- One candidate of a provider response. -/
structure Candidate where
  finishReason : Option String
  safetyRatings : List SafetyRating
  content : Option (List ContentPart)
deriving DecidableEq

/-- A provider response as read by the service: candidate list, the
promptFeedback.blockReason field, and the SDK text accessor. -/
structure GenResponse where
  candidates : List Candidate
  promptFeedbackBlockReason : Option String
  text : Option String
deriving DecidableEq

/-- The promptFeedback fallback tail of extractErrorDetails: a truthy
blockReason is reported, otherwise the caller fallback is used. -/
def promptFeedbackMsg (response : GenResponse) (fallback : String) : String :=
  match response.promptFeedbackBlockReason with
  | some reason => if reason = "" then fallback else "Prompt blocked: " ++ reason
  | none => fallback

/-- extractErrorDetails from src/services/geminiService.ts: blocked-content
finish reasons on the first candidate are reported first, then prompt
feedback, then the fallback. -/
def extractErrorDetails (response : GenResponse) (fallback : String) : String :=
  match response.candidates.head? with
  | some candidate =>
    if candidate.finishReason = some "SAFETY" then
      let blockedCategories := String.intercalate ", "
        (((candidate.safetyRatings.filter (fun r => r.blocked)).map (fun r => r.category)))
      "Content blocked by safety filters: " ++
        (if blockedCategories = "" then "unspecified category" else blockedCategories)
    else if candidate.finishReason = some "RECITATION" then
      "Content blocked: detected potential copyrighted material"
    else if candidate.finishReason = some "OTHER" then
      "Generation stopped unexpectedly. Try a different topic or shorter length."
    else promptFeedbackMsg response fallback
  | none => promptFeedbackMsg response fallback

/-- A provider call as the orchestrator sees it: how long it takes to
settle (milliseconds) and what it settles to (a value or a rejection). -/
structure TimedCall (α : Type) where
  duration : Nat
  outcome : Except ErrObs α

/-- The message produced by the timeout rejection in withTimeout. -/
def timeoutMessage (operation : String) (ms : Nat) : String :=
  operation ++ " timed out after " ++ toString (ms / 1000) ++ "s"

/-- withTimeout from src/services/geminiService.ts: a race between the call
and a timer; if the call takes longer than ms the timer wins and the
outcome is the timeout rejection, otherwise the call settles first. -/
def withTimeout (call : TimedCall α) (ms : Nat) (operation : String) :
    Except ErrObs α :=
  if ms < call.duration then Except.error ⟨none, none, timeoutMessage operation ms⟩
  else call.outcome

/-- The response-body fields generateScriptViaOpenRouter reads: the
error-message fallback chain and choices[0].message.content. errorJson
models JSON.stringify(data.error) (none when data.error is undefined). -/
structure ORData where
  errorMessage : Option String
  errorMetadataRaw : Option String
  message : Option String
  errorJson : Option String
  text : Option String
deriving DecidableEq

/-- An OpenRouter fetch response: the ok flag, the HTTP status and the
parsed body. -/
structure ORResponse where
  ok : Bool
  status : Nat
  data : ORData
deriving DecidableEq

/-- JavaScript truthiness-based fallback on strings: a present, nonempty
string wins, otherwise the second operand. -/
def jsOrStr : Option String → Option String → Option String
  | some s, b => if s = "" then b else some s
  | none, b => b

/-- generateScriptViaOpenRouter from src/services/geminiService.ts. The
fetch is awaited with no timeout, so the outcome ignores the duration. -/
def generateScriptViaOpenRouter (call : TimedCall ORResponse) :
    Except ErrObs String :=
  match call.outcome with
  | Except.error e => Except.error e
  | Except.ok resp =>
    if resp.ok = false then
      let chained := jsOrStr resp.data.errorMessage
        (jsOrStr resp.data.errorMetadataRaw (jsOrStr resp.data.message resp.data.errorJson))
      let errorMessage := match chained with
        | some s => s
        | none => "OpenRouter API error: " ++ toString resp.status
      Except.error ⟨none, none, "Grok error: " ++ errorMessage⟩
    else
      match resp.data.text with
      | none =>
        Except.error ⟨none, none,
          "No script text returned from Grok. The model may be overloaded."⟩
      | some t =>
        if strTrim t = "" then
          Except.error ⟨none, none,
            "No script text returned from Grok. The model may be overloaded."⟩
        else Except.ok t

/-- generateScriptViaGemini from src/services/geminiService.ts: the only
provider call wrapped in withTimeout (60 s); a falsy or blank text is
reported through extractErrorDetails. -/
def generateScriptViaGemini (call : TimedCall GenResponse) :
    Except ErrObs String :=
  match withTimeout call REQUEST_TIMEOUT_MS "Script generation" with
  | Except.error e => Except.error e
  | Except.ok response =>
    match response.text with
    | none =>
      Except.error ⟨none, none,
        extractErrorDetails response "No script text returned from Gemini."⟩
    | some t =>
      if strTrim t = "" then
        Except.error ⟨none, none,
          extractErrorDetails response "No script text returned from Gemini."⟩
      else Except.ok t

/-- A speaker as in src/types.ts. -/
structure Speaker where
  id : String
  name : String
  voiceName : String
deriving DecidableEq

/-- The target length class from src/types.ts. -/
inductive PodLength
  | short
  | medium
  | long
deriving DecidableEq

/-- PodcastConfig from src/types.ts. -/
structure PodcastConfig where
  topic : String
  speakerCount : Nat
  speakers : List Speaker
  ttsModel : String
  scriptModel : String
  temperature : ℚ
  length : PodLength
deriving DecidableEq

/-- A prebuilt voice selection. -/
structure PrebuiltVoiceConfig where
  voiceName : String
deriving DecidableEq

/-- A single-voice configuration. -/
structure VoiceConfig where
  prebuiltVoiceConfig : PrebuiltVoiceConfig
deriving DecidableEq

/-- One entry of a multi-speaker voice configuration: the routing key
(speaker) and the voice bound to it. -/
structure SpeakerVoiceConfig where
  speaker : String
  voiceConfig : VoiceConfig
deriving DecidableEq

/-- The speechConfig payload shape sent to the synthesis call. -/
inductive SpeechConfig
  | single (voiceConfig : VoiceConfig)
  | multi (speakerVoiceConfigs : List SpeakerVoiceConfig)
deriving DecidableEq

/-- The voice-configuration construction in generatePodcastAudio: more than
one speaker yields a multi-speaker mapping built from each speaker name and
voice, exactly one speaker yields a single-voice configuration from
speakers[0]; none models the crash of reading speakers[0] on an empty
list. -/
def buildSpeechConfig (config : PodcastConfig) : Option SpeechConfig :=
  if 1 < config.speakers.length then
    some (SpeechConfig.multi (config.speakers.map
      (fun s => ⟨s.name, ⟨⟨s.voiceName⟩⟩⟩)))
  else
    match config.speakers with
    | [] => none
    | s :: _ => some (SpeechConfig.single ⟨⟨s.voiceName⟩⟩)

/-- The generateContent request generatePodcastAudio submits: model,
script contents, speech configuration and the temperature taken from the
request. -/
structure TtsRequest where
  model : String
  script : String
  speechConfig : SpeechConfig
  temperature : ℚ
deriving DecidableEq

/-- The full request assembly of generatePodcastAudio. -/
def buildTtsRequest (script : String) (config : PodcastConfig) :
    Option TtsRequest :=
  (buildSpeechConfig config).map
    (fun sc => ⟨config.ttsModel, script, sc, config.temperature⟩)

/-- The fallback message of the audio extraction. -/
def noAudioFallback : String :=
  "No audio data returned from Gemini. The TTS model may be temporarily unavailable."

/-- candidates[0].content.parts[0].inlineData.data of a response. -/
def firstAudioData (response : GenResponse) : Option String :=
  ((response.candidates.head?.bind (fun c => c.content)).bind List.head?).bind
    (fun p => p.inlineDataData)

/-- The extraction step of generatePodcastAudio: a missing or falsy (empty)
payload raises the extractErrorDetails message, otherwise the payload is
returned. -/
def audioAttemptOutcome (response : GenResponse) : Except ErrObs String :=
  match firstAudioData response with
  | some d =>
    if d = "" then Except.error ⟨none, none, extractErrorDetails response noAudioFallback⟩
    else Except.ok d
  | none => Except.error ⟨none, none, extractErrorDetails response noAudioFallback⟩

/-- One attempt of generatePodcastAudio: the synthesis call is awaited with
no timeout race, so only the settled outcome matters, never the duration;
a rejection propagates, a response goes through the payload extraction. -/
def generatePodcastAudioAttempt (script : String) (config : PodcastConfig)
    (call : TimedCall GenResponse) : Except ErrObs String :=
  match buildTtsRequest script config with
  | none => Except.error ⟨none, none, "TypeError: cannot read voiceName of undefined"⟩
  | some _ =>
    match call.outcome with
    | Except.error e => Except.error e
    | Except.ok response => audioAttemptOutcome response

/-- generatePodcastAudio from src/services/geminiService.ts: the attempt
above under withRetry, with the per-attempt provider behavior given as an
oracle indexed by attempt number. -/
def generatePodcastAudio (script : String) (config : PodcastConfig)
    (calls : Nat → TimedCall GenResponse) : RetryOutcome String :=
  withRetry (fun k => generatePodcastAudioAttempt script config (calls k))

/-- generatePodcastScript from src/services/geminiService.ts: routes on the
model identifier prefix, then retries the routed attempt. -/
def generatePodcastScript (config : PodcastConfig)
    (grokCalls : Nat → TimedCall ORResponse)
    (geminiCalls : Nat → TimedCall GenResponse) : RetryOutcome String :=
  withRetry (fun k =>
    if config.scriptModel.startsWith "x-ai/" then
      generateScriptViaOpenRouter (grokCalls k)
    else
      generateScriptViaGemini (geminiCalls k))

/-- The playback-relevant mutable fields of the App component in
src/unnamed/part_000: isPlaying, startTimeRef, pauseTimeRef, currentTime,
and whether a rendering source is live (sourceNodeRef non-null). Clock
instants and offsets are in seconds. -/
structure TransportState where
  isPlaying : Bool
  startTime : ℚ
  pauseTime : ℚ
  currentTime : ℚ
  sourceActive : Bool
deriving DecidableEq

/-- playFrom from src/unnamed/part_000: retire any live source, start a new
one at the given offset, anchor startTime = now - offset, mark playing.
now is the audio-context clock reading at the call. -/
def playFrom (st : TransportState) (offset now : ℚ) : TransportState :=
  { st with sourceActive := true, startTime := now - offset, isPlaying := true }

/-- togglePlayback from src/unnamed/part_000: when playing, stop the source
and record pauseTime = now - startTime; otherwise resume from pauseTime. -/
def togglePlayback (st : TransportState) (now : ℚ) : TransportState :=
  if st.isPlaying then
    { st with
      sourceActive := false
      pauseTime := now - st.startTime
      isPlaying := false }
  else playFrom st st.pauseTime now

/-- The pause action as the UI exposes it: the pause branch of
togglePlayback. The toggle only takes that branch while playing, so outside
PLAYING the pause action leaves the state unchanged. -/
def pause (st : TransportState) (now : ℚ) : TransportState :=
  if st.isPlaying then togglePlayback st now else st

/-- The source.onended handler installed by playFrom: if the reconstructed
elapsed time (now - startTime) is within 0.2 s of the buffer duration the
stop is treated as natural completion (playing flag cleared, pauseTime and
currentTime reset to zero); otherwise nothing is changed. -/
def onEnded (st : TransportState) (now duration : ℚ) : TransportState :=
  if |now - st.startTime - duration| < 1/5 then
    { st with isPlaying := false, pauseTime := 0, currentTime := 0 }
  else st

/-- GenerationStatus from src/types.ts. -/
inductive GenerationStatus
  | IDLE
  | WRITING_SCRIPT
  | GENERATING_AUDIO
  | COMPLETED
  | ERROR
deriving DecidableEq

/-- A decoded audio buffer: sample rate in Hz and one sample list per
channel, samples as exact rationals standing for the normalized
floating-point values in [-1, 1]. -/
structure DecodedAudioBuffer where
  sampleRate : Nat
  channelData : List (List ℚ)
deriving DecidableEq

/-- The App state fields handleGenerate touches in src/unnamed/part_000. -/
structure AppState where
  status : GenerationStatus
  generatedScript : String
  audioBuffer : Option DecodedAudioBuffer
  isPlaying : Bool
  error : Option String
  sourceActive : Bool
deriving DecidableEq

/-- The outcome of one handleGenerate run: the final App state and which
provider calls were issued. -/
structure GenEffects where
  finalState : AppState
  scriptCalled : Bool
  audioCalled : Bool
deriving DecidableEq

/-- The message shown for a thrown error: err.message with the falsy
fallback used in the catch block. -/
def shownError (m : String) : String :=
  if m = "" then "System Failure." else m

/-- handleGenerate from src/unnamed/part_000, with the awaited steps given
as outcomes: the script call, the audio call and the decode step each
either produce their artifact or throw a message. A blank topic returns
early after setting only the error message. The audio context is assumed
assumed present (it is created on mount). -/
def handleGenerate (st : AppState) (topic : String)
    (scriptRes : Except String String) (audioRes : Except String String)
    (decodeRes : Except String DecodedAudioBuffer) : GenEffects :=
  if strTrim topic = "" then
    ⟨{ st with error := some "Missing input vector: topic required." },
      false, false⟩
  else
    let st1 : AppState :=
      { st with
        error := none
        status := GenerationStatus.WRITING_SCRIPT
        isPlaying := false
        sourceActive := false }
    match scriptRes with
    | Except.error m =>
      ⟨{ st1 with error := some (shownError m), status := GenerationStatus.ERROR },
        true, false⟩
    | Except.ok script =>
      let st2 : AppState :=
        { st1 with
          generatedScript := script
          status := GenerationStatus.GENERATING_AUDIO }
      match audioRes with
      | Except.error m =>
        ⟨{ st2 with error := some (shownError m), status := GenerationStatus.ERROR },
          true, true⟩
      | Except.ok _b64 =>
        match decodeRes with
        | Except.error m =>
          ⟨{ st2 with error := some (shownError m), status := GenerationStatus.ERROR },
            true, true⟩
        | Except.ok buffer =>
          ⟨{ st2 with
            audioBuffer := some buffer
            status := GenerationStatus.COMPLETED }, true, true⟩

/-- Two little-endian bytes of a 16-bit unsigned value. -/
def u16le (v : Nat) : List Nat := [v % 256, v / 256 % 256]

/-- Four little-endian bytes of a 32-bit unsigned value. -/
def u32le (v : Nat) : List Nat :=
  [v % 256, v / 256 % 256, v / 65536 % 256, v / 16777216 % 256]

/-- Two little-endian bytes of a signed 16-bit integer, encoded as its
two-complement residue. -/
def i16le (q : ℤ) : List Nat := u16le (q % 65536).toNat

/-- Modelled from the spec: the per-sample conversion of the WAV encoder
(src/utils/audioUtils.ts is absent from src/; §4.4): clamp to [-1, 1],
scale by 32767, and write the nearest integer. -/
def clampScale (s : ℚ) : ℤ := round (max (-1) (min 1 s) * 32767)

/-- Concatenation of the chunks produced from each element of a list. -/
def catMap (f : α → List β) : List α → List β
  | [] => []
  | x :: xs => f x ++ catMap f xs

/-- The sample count of a buffer (length of the first channel). -/
def numSamples (buf : DecodedAudioBuffer) : Nat :=
  (buf.channelData.headD []).length

/-- One interleaved frame of the encoder output: for frame i, the 16-bit
little-endian encoding of sample i of each channel in order. -/
def frameBytes (buf : DecodedAudioBuffer) (i : Nat) : List Nat :=
  catMap (fun chl => i16le (clampScale (chl.getD i 0))) buf.channelData

/-- Modelled from the spec: the 44-byte header of the WAV container
(src/utils/audioUtils.ts is absent from src/; §4.4): RIFF, total size minus
8, WAVE, fmt chunk of size 16, PCM format 1, channel count, sample rate,
byte rate, block align, 16 bits per sample, data chunk size. -/
def wavHeader (ch rate dataSize : Nat) : List Nat :=
  [82, 73, 70, 70,
   (36 + dataSize) % 256, (36 + dataSize) / 256 % 256,
   (36 + dataSize) / 65536 % 256, (36 + dataSize) / 16777216 % 256,
   87, 65, 86, 69,
   102, 109, 116, 32,
   16, 0, 0, 0,
   1, 0,
   ch % 256, ch / 256 % 256,
   rate % 256, rate / 256 % 256, rate / 65536 % 256, rate / 16777216 % 256,
   rate * ch * 2 % 256, rate * ch * 2 / 256 % 256,
   rate * ch * 2 / 65536 % 256, rate * ch * 2 / 16777216 % 256,
   ch * 2 % 256, ch * 2 / 256 % 256,
   16, 0,
   100, 97, 116, 97,
   dataSize % 256, dataSize / 256 % 256,
   dataSize / 65536 % 256, dataSize / 16777216 % 256]

/-- Modelled from the spec: audioBufferToWav (src/utils/audioUtils.ts is
absent from src/; §4.4): the 44-byte header followed by the clamped,
scaled samples as little-endian 16-bit integers, channels interleaved. -/
def audioBufferToWav (buf : DecodedAudioBuffer) : List Nat :=
  wavHeader buf.channelData.length buf.sampleRate
      (numSamples buf * buf.channelData.length * 2) ++
    catMap (frameBytes buf) (List.range (numSamples buf))

/-- A 16-bit little-endian read at a byte offset. -/
def readU16 (bytes : List Nat) (off : Nat) : Nat :=
  bytes.getD off 0 + 256 * bytes.getD (off + 1) 0

/-- A 32-bit little-endian read at a byte offset. -/
def readU32 (bytes : List Nat) (off : Nat) : Nat :=
  bytes.getD off 0 + 256 * bytes.getD (off + 1) 0 +
    65536 * bytes.getD (off + 2) 0 + 16777216 * bytes.getD (off + 3) 0

/-- Sign reconstruction of a 16-bit two-complement residue. -/
def u16toI (u : Nat) : ℤ := if u < 32768 then (u : ℤ) else (u : ℤ) - 65536

/-- Modelled from the spec: a conforming WAV reader (§4.4): reads channel
count, sample rate and data size from the header, then de-interleaves the
16-bit little-endian samples, mapping each back to the rational value
sample / 32767. -/
def wavDecode (bytes : List Nat) : DecodedAudioBuffer :=
  { sampleRate := readU32 bytes 24
    channelData := (List.range (readU16 bytes 22)).map (fun c =>
      (List.range (readU32 bytes 40 / (2 * readU16 bytes 22))).map (fun i =>
        (u16toI (readU16 bytes (44 + 2 * (i * readU16 bytes 22 + c))) : ℚ) / 32767)) }

/-- A concrete attempt oracle: two 503 rejections, then success. -/
def exFn : Nat → Except ErrObs String := fun k =>
  if k ≤ 2 then Except.error ⟨some 503, none, "Service Unavailable"⟩
  else Except.ok "SCRIPT"

/-- A concrete single-speaker request. -/
def oneSpeakerConfig : PodcastConfig :=
  { topic := "black holes"
    speakerCount := 1
    speakers := [⟨"1", "Alpha", "Leda"⟩]
    ttsModel := "gemini-2.5-pro-preview-tts"
    scriptModel := "gemini-3-pro-preview"
    temperature := 1
    length := PodLength.short }

/-- A concrete two-speaker request. -/
def twoSpeakerConfig : PodcastConfig :=
  { topic := "black holes"
    speakerCount := 2
    speakers := [⟨"1", "Alpha", "Leda"⟩, ⟨"2", "Beta", "Aoede"⟩]
    ttsModel := "gemini-2.5-pro-preview-tts"
    scriptModel := "gemini-3-pro-preview"
    temperature := 1
    length := PodLength.short }

/-- A synthesis call that takes 61 seconds and then settles successfully
with an inline audio payload. -/
def slowAudioCall : TimedCall GenResponse :=
  { duration := 61000
    outcome := Except.ok
      { candidates := [⟨none, [], some [⟨none, some "QUJD"⟩]⟩]
        promptFeedbackBlockReason := none
        text := none } }

/-- A response blocked by the safety filter whose blocked category is the
string "network", with no audio payload. -/
def blockedNetworkResponse : GenResponse :=
  { candidates := [⟨some "SAFETY", [⟨"network", true⟩], none⟩]
    promptFeedbackBlockReason := none
    text := none }

/-- A response blocked for recitation, with no audio payload. -/
def recitationResponse : GenResponse :=
  { candidates := [⟨some "RECITATION", [], none⟩]
    promptFeedbackBlockReason := none
    text := none }

/-- The keyword substrings whose presence in a lowercased message makes the
classifier return retryable. -/
def retryKeywords : List String :=
  ["timeout", "timed out", "network", "fetch failed", "econnreset", "no audio data"]

/-- The first candidate of a response reports blocked content: its finish
reason is SAFETY or RECITATION. -/
def reportsBlocked (r : GenResponse) : Prop :=
  ∃ c, r.candidates.head? = some c ∧
    (c.finishReason = some "SAFETY" ∨ c.finishReason = some "RECITATION")

lemma withRetryGo_ok {fn : Nat → Except ErrObs α} {attempt r : Nat} {a : α}
    (h : fn attempt = Except.ok a) :
    withRetryGo fn attempt (r + 1) = ⟨Except.ok a, 1, []⟩ := by
  simp [withRetryGo, h]

lemma withRetryGo_stop {fn : Nat → Except ErrObs α} {attempt r : Nat} {e : ErrObs}
    (h : fn attempt = Except.error e) (hc : r = 0 ∨ isRetryableError e = false) :
    withRetryGo fn attempt (r + 1) = ⟨Except.error (some e), 1, []⟩ := by
  simp only [withRetryGo, h]
  rw [if_pos hc]

lemma withRetryGo_step {fn : Nat → Except ErrObs α} {attempt r : Nat} {e : ErrObs}
    (h : fn attempt = Except.error e) (hr : r ≠ 0) (he : isRetryableError e = true) :
    withRetryGo fn attempt (r + 1) =
      ⟨(withRetryGo fn (attempt + 1) r).result,
       (withRetryGo fn (attempt + 1) r).attemptsMade + 1,
       INITIAL_DELAY_MS * 2 ^ (attempt - 1) :: (withRetryGo fn (attempt + 1) r).delays⟩ := by
  simp only [withRetryGo, h]
  rw [if_neg (by simp [hr, he])]

lemma withRetryGo_spec (fn : Nat → Except ErrObs α) :
    ∀ r attempt, 1 ≤ attempt →
    (1 ≤ (withRetryGo fn attempt (r + 1)).attemptsMade ∧
      (withRetryGo fn attempt (r + 1)).attemptsMade ≤ r + 1) ∧
    (withRetryGo fn attempt (r + 1)).delays =
      (List.range ((withRetryGo fn attempt (r + 1)).attemptsMade - 1)).map
        (fun i => INITIAL_DELAY_MS * 2 ^ (attempt - 1 + i)) ∧
    (∀ k, attempt ≤ k → k < attempt + (withRetryGo fn attempt (r + 1)).attemptsMade - 1 →
      ∃ e, fn k = Except.error e ∧ isRetryableError e = true) ∧
    (∀ e, (withRetryGo fn attempt (r + 1)).result = Except.error (some e) →
      fn (attempt + (withRetryGo fn attempt (r + 1)).attemptsMade - 1) = Except.error e ∧
      ((withRetryGo fn attempt (r + 1)).attemptsMade < r + 1 → isRetryableError e = false)) ∧
    (∀ a, (withRetryGo fn attempt (r + 1)).result = Except.ok a →
      fn (attempt + (withRetryGo fn attempt (r + 1)).attemptsMade - 1) = Except.ok a) ∧
    (withRetryGo fn attempt (r + 1)).result ≠ Except.error none := by
  intro r
  induction r with
  | zero =>
    intro attempt h1
    cases hfn : fn attempt with
    | ok a =>
      rw [withRetryGo_ok hfn]
      dsimp only
      refine ⟨⟨le_refl 1, le_refl 1⟩, by simp, ?_, ?_, ?_, by simp⟩
      · intro k hk1 hk2; omega
      · intro e he; simp at he
      · intro a' ha
        simp at ha
        subst ha
        simpa using hfn
    | error e =>
      rw [withRetryGo_stop hfn (Or.inl rfl)]
      dsimp only
      refine ⟨⟨le_refl 1, le_refl 1⟩, by simp, ?_, ?_, ?_, by simp⟩
      · intro k hk1 hk2; omega
      · intro e' he'
        simp at he'
        subst he'
        exact ⟨by simpa using hfn, fun h => absurd h (by simp)⟩
      · intro a ha; simp at ha
  | succ r ih =>
    intro attempt h1
    cases hfn : fn attempt with
    | ok a =>
      rw [withRetryGo_ok hfn]
      dsimp only
      refine ⟨⟨le_refl 1, by omega⟩, by simp, ?_, ?_, ?_, by simp⟩
      · intro k hk1 hk2; omega
      · intro e he; simp at he
      · intro a' ha
        simp at ha
        subst ha
        simpa using hfn
    | error e =>
      by_cases hretry : isRetryableError e = true
      · rw [withRetryGo_step hfn (show r + 1 ≠ 0 by omega) hretry]
        dsimp only
        obtain ⟨⟨hge, hle⟩, hdel, hkconj, herr, hok, hne⟩ := ih (attempt + 1) (by omega)
        refine ⟨⟨by omega, by omega⟩, ?_, ?_, ?_, ?_, by simpa using hne⟩
        · have hatt : (withRetryGo fn (attempt + 1) (r + 1)).attemptsMade + 1 - 1 =
              ((withRetryGo fn (attempt + 1) (r + 1)).attemptsMade - 1) + 1 := by omega
          have htail : List.map (fun i => INITIAL_DELAY_MS * 2 ^ (attempt + 1 - 1 + i))
              (List.range ((withRetryGo fn (attempt + 1) (r + 1)).attemptsMade - 1)) =
            List.map ((fun i => INITIAL_DELAY_MS * 2 ^ (attempt - 1 + i)) ∘ Nat.succ)
              (List.range ((withRetryGo fn (attempt + 1) (r + 1)).attemptsMade - 1)) := by
            apply List.map_congr_left
            intro i hi
            show INITIAL_DELAY_MS * 2 ^ (attempt + 1 - 1 + i) =
              INITIAL_DELAY_MS * 2 ^ (attempt - 1 + (i + 1))
            have hexp : attempt + 1 - 1 + i = attempt - 1 + (i + 1) := by omega
            rw [hexp]
          rw [hatt, List.range_succ_eq_map, List.map_cons, List.map_map, hdel, htail]
          simp
        · intro k hk1 hk2
          by_cases hk : k = attempt
          · exact ⟨e, hk ▸ hfn, hretry⟩
          · refine hkconj k (by omega) (by omega)
        · intro e' he'
          obtain ⟨h1e, h2e⟩ := herr e' he'
          refine ⟨?_, ?_⟩
          · have harith : attempt + ((withRetryGo fn (attempt + 1) (r + 1)).attemptsMade + 1) - 1 =
                attempt + 1 + (withRetryGo fn (attempt + 1) (r + 1)).attemptsMade - 1 := by
              omega
            rw [harith]
            exact h1e
          · intro hlt
            exact h2e (by omega)
        · intro a ha
          have harith : attempt + ((withRetryGo fn (attempt + 1) (r + 1)).attemptsMade + 1) - 1 =
              attempt + 1 + (withRetryGo fn (attempt + 1) (r + 1)).attemptsMade - 1 := by
            omega
          rw [harith]
          exact hok a ha
      · have hr : isRetryableError e = false := by
          cases h : isRetryableError e
          · rfl
          · exact absurd h hretry
        rw [withRetryGo_stop hfn (Or.inr hr)]
        dsimp only
        refine ⟨⟨le_refl 1, by omega⟩, by simp, ?_, ?_, ?_, by simp⟩
        · intro k hk1 hk2; omega
        · intro e' he'
          simp at he'
          subst he'
          exact ⟨by simpa using hfn, fun _ => hr⟩
        · intro a ha; simp at ha

/-- Claim C1: the retry wrapper issues at most 3 attempts (and at least
one), sleeps 1000 ms before attempt 2 and 2000 ms before attempt 3
(1000 x 2 ^ (attempt - 1)), every attempt before the last one observed a
retryable failure, an early stop on a failure is always a non-retryable
classification, and the surfaced failure or value is the one observed on
the final attempt. Both orchestrated operations instantiate withRetry with
this default budget. -/
theorem retry_policy_spec (fn : Nat → Except ErrObs α) :
    (1 ≤ (withRetry fn).attemptsMade ∧ (withRetry fn).attemptsMade ≤ 3) ∧
    (withRetry fn).delays = (List.range ((withRetry fn).attemptsMade - 1)).map
      (fun i => 1000 * 2 ^ i) ∧
    (∀ k, 1 ≤ k → k < (withRetry fn).attemptsMade →
      ∃ e, fn k = Except.error e ∧ isRetryableError e = true) ∧
    (∀ e, (withRetry fn).result = Except.error (some e) →
      fn (withRetry fn).attemptsMade = Except.error e ∧
      ((withRetry fn).attemptsMade < 3 → isRetryableError e = false)) ∧
    (∀ a, (withRetry fn).result = Except.ok a →
      fn (withRetry fn).attemptsMade = Except.ok a) ∧
    (withRetry fn).result ≠ Except.error none := by
  obtain ⟨⟨hge, hle⟩, hdel, hk, herr, hok, hne⟩ := withRetryGo_spec fn 2 1 (le_refl 1)
  have harith : ∀ x : Nat, 1 + x - 1 = x := by omega
  have hw : withRetry fn = withRetryGo fn 1 (2 + 1) := rfl
  rw [hw]
  refine ⟨⟨hge, hle⟩, ?_, ?_, ?_, ?_, hne⟩
  · simpa [INITIAL_DELAY_MS] using hdel
  · intro k h1k h2k
    exact hk k h1k (by omega)
  · intro e he
    obtain ⟨ha, hb⟩ := herr e he
    rw [harith] at ha
    exact ⟨ha, hb⟩
  · intro a ha
    have := hok a ha
    rwa [harith] at this

/-- Witness for C1: with two 503 rejections followed by success, attempt 1
indeed observed a retryable failure. -/
theorem retry_policy_spec_witness :
    ∃ e, exFn 1 = Except.error e ∧ isRetryableError e = true :=
  (retry_policy_spec exFn).2.2.1 1 (by decide) (by decide)

/-- Claim C4: the classifier returns retryable exactly when the effective
status (err.status, with err.code as falsy fallback) is one of 429, 500,
502, 503, 504, or the lowercased message contains a timeout wording, a
network or connection wording, or the empty-result wording; every other
observation is not retryable. -/
theorem retry_classifier_exact (e : ErrObs) :
    isRetryableError e = true ↔
      ((effStatus e = some 429 ∨ effStatus e = some 500 ∨ effStatus e = some 502 ∨
        effStatus e = some 503 ∨ effStatus e = some 504) ∨
       (strContains (strToLower e.message) "timeout" = true ∨
        strContains (strToLower e.message) "timed out" = true) ∨
       (strContains (strToLower e.message) "network" = true ∨
        strContains (strToLower e.message) "fetch failed" = true ∨
        strContains (strToLower e.message) "econnreset" = true) ∨
       strContains (strToLower e.message) "no audio data" = true) := by
  simp only [isRetryableError]
  split_ifs with h1 h2 h3 h4 <;>
    (simp_all [Bool.or_eq_true]; try tauto)

/-- Counterexample to claim C2: a synthesis call that takes 61 seconds is
not treated as a timeout failure; generatePodcastAudio simply awaits it and
returns the payload. -/
theorem audio_timeout_cex :
    REQUEST_TIMEOUT_MS < slowAudioCall.duration ∧
    generatePodcastAudioAttempt "script" oneSpeakerConfig slowAudioCall =
      Except.ok "QUJD" :=
  ⟨by decide, rfl⟩

/-- Claim C2 as amended: only the script-generation call routed to the
Gemini backend applies the 60-second timeout, and the resulting timeout
failure is classified retryable; the OpenRouter script backend and the
audio-synthesis call are awaited without a timeout, so their outcome is
independent of the call duration. -/
theorem timeout_scope_amended :
    (∀ call : TimedCall GenResponse, REQUEST_TIMEOUT_MS < call.duration →
      generateScriptViaGemini call =
        Except.error ⟨none, none, "Script generation timed out after 60s"⟩) ∧
    isRetryableError ⟨none, none, "Script generation timed out after 60s"⟩ = true ∧
    (∀ (d d' : Nat) (o : Except ErrObs ORResponse),
      generateScriptViaOpenRouter ⟨d, o⟩ = generateScriptViaOpenRouter ⟨d', o⟩) ∧
    (∀ (script : String) (config : PodcastConfig) (d d' : Nat)
        (o : Except ErrObs GenResponse),
      generatePodcastAudioAttempt script config ⟨d, o⟩ =
        generatePodcastAudioAttempt script config ⟨d', o⟩) := by
  refine ⟨?_, by decide, ?_, ?_⟩
  · intro call hdur
    have hto : withTimeout call REQUEST_TIMEOUT_MS "Script generation" =
        Except.error ⟨none, none, timeoutMessage "Script generation" REQUEST_TIMEOUT_MS⟩ := by
      rw [withTimeout, if_pos hdur]
    have hmsg : timeoutMessage "Script generation" REQUEST_TIMEOUT_MS =
        "Script generation timed out after 60s" := by decide
    simp [generateScriptViaGemini, hto, hmsg]
  · intro d d' o
    rfl
  · intro script config d d' o
    rfl

/-- Witness for the amended C2: a Gemini script call taking 60001 ms is
surfaced as the retryable timeout failure. -/
theorem timeout_scope_amended_witness :
    generateScriptViaGemini ⟨60001, Except.ok ⟨[], none, some "hello"⟩⟩ =
      Except.error ⟨none, none, "Script generation timed out after 60s"⟩ :=
  timeout_scope_amended.1 ⟨60001, Except.ok ⟨[], none, some "hello"⟩⟩ (by decide)

/-- Counterexample to claim C3: a response blocked by the safety filter
whose blocked category is named "network" yields the failure message
"Content blocked by safety filters: network", which the classifier marks
retryable, so the orchestrator performs all three attempts instead of
stopping after the first. -/
theorem blocked_retryable_cex :
    blockedNetworkResponse.candidates.head?.map (fun c => c.finishReason) =
      some (some "SAFETY") ∧
    isRetryableError ⟨none, none,
      extractErrorDetails blockedNetworkResponse noAudioFallback⟩ = true ∧
    (withRetry (fun _ => audioAttemptOutcome blockedNetworkResponse)).attemptsMade = 3 := by
  decide

/-- Claim C3 as amended: a provider response reporting blocked content
(safety or recitation finish reason) with no audio payload surfaces a
failure message starting with "Content blocked"; provided no retryable
keyword substring occurs in the lowercased message (true of every
recitation block and of safety blocks whose category names avoid those
substrings), the failure is classified not retryable and the orchestrator
stops after the first attempt, surfacing that failure. -/
theorem blocked_stops_retries_amended (r : GenResponse)
    (hblocked : reportsBlocked r)
    (hpayload : firstAudioData r = none ∨ firstAudioData r = some "")
    (hkw : ∀ kw ∈ retryKeywords,
      strContains (strToLower (extractErrorDetails r noAudioFallback)) kw = false) :
    (∃ rest, extractErrorDetails r noAudioFallback = "Content blocked" ++ rest) ∧
    isRetryableError ⟨none, none, extractErrorDetails r noAudioFallback⟩ = false ∧
    (withRetry (fun _ => audioAttemptOutcome r)).attemptsMade = 1 ∧
    (withRetry (fun _ => audioAttemptOutcome r)).result =
      Except.error (some ⟨none, none, extractErrorDetails r noAudioFallback⟩) := by
  have hout : audioAttemptOutcome r =
      Except.error ⟨none, none, extractErrorDetails r noAudioFallback⟩ := by
    rcases hpayload with h | h <;> simp [audioAttemptOutcome, h]
  have hretry : isRetryableError
      ⟨none, none, extractErrorDetails r noAudioFallback⟩ = false := by
    have h1 := hkw "timeout" (by simp [retryKeywords])
    have h2 := hkw "timed out" (by simp [retryKeywords])
    have h3 := hkw "network" (by simp [retryKeywords])
    have h4 := hkw "fetch failed" (by simp [retryKeywords])
    have h5 := hkw "econnreset" (by simp [retryKeywords])
    have h6 := hkw "no audio data" (by simp [retryKeywords])
    simp [isRetryableError, effStatus, jsOrNum, h1, h2, h3, h4, h5, h6]
  refine ⟨?_, hretry, ?_, ?_⟩
  · obtain ⟨c, hc, hfr⟩ := hblocked
    rcases hfr with hs | hr
    · refine ⟨" by safety filters: " ++
        (if String.intercalate ", "
            ((c.safetyRatings.filter (fun x => x.blocked)).map (fun x => x.category)) = ""
          then "unspecified category"
          else String.intercalate ", "
            ((c.safetyRatings.filter (fun x => x.blocked)).map (fun x => x.category))), ?_⟩
      rw [extractErrorDetails, hc]
      simp only [hs, if_pos rfl]
      rw [← String.append_assoc]
      rfl
    · refine ⟨": detected potential copyrighted material", ?_⟩
      rw [extractErrorDetails, hc]
      dsimp only
      rw [hr, if_neg (by decide), if_pos (by decide)]
      rfl
  · rw [show (withRetry (fun _ => audioAttemptOutcome r)) =
      withRetryGo (fun _ => audioAttemptOutcome r) 1 (2 + 1) from rfl]
    rw [withRetryGo_stop hout (Or.inr hretry)]
  · rw [show (withRetry (fun _ => audioAttemptOutcome r)) =
      withRetryGo (fun _ => audioAttemptOutcome r) 1 (2 + 1) from rfl]
    rw [withRetryGo_stop hout (Or.inr hretry)]

/-- Witness for the amended C3: a recitation block stops after a single
attempt. -/
theorem blocked_stops_retries_amended_witness :
    (withRetry (fun _ => audioAttemptOutcome recitationResponse)).attemptsMade = 1 :=
  (blocked_stops_retries_amended recitationResponse
    ⟨⟨some "RECITATION", [], none⟩, rfl, Or.inr rfl⟩
    (Or.inl rfl) (by decide)).2.2.1

/-- Claim C5: with exactly one speaker the synthesis request carries a
single-voice configuration with that speaker voice identifier; with more
than one speaker it carries a multi-speaker configuration whose entries use
the exact speaker display names as routing keys and the matching voice
identifiers; in both cases the model is the configured TTS model and the
temperature is passed through unmodified. -/
theorem voice_config_spec (config : PodcastConfig) (script : String) :
    (∀ s, config.speakers = [s] →
      buildTtsRequest script config = some
        ⟨config.ttsModel, script, SpeechConfig.single ⟨⟨s.voiceName⟩⟩,
          config.temperature⟩) ∧
    (1 < config.speakers.length →
      ∃ entries,
        buildTtsRequest script config = some
          ⟨config.ttsModel, script, SpeechConfig.multi entries,
            config.temperature⟩ ∧
        entries.length = config.speakers.length ∧
        ∀ i, (hi : i < config.speakers.length) →
          (entries.getD i ⟨"", ⟨⟨""⟩⟩⟩).speaker =
            (config.speakers.get ⟨i, hi⟩).name ∧
          (entries.getD i ⟨"", ⟨⟨""⟩⟩⟩).voiceConfig.prebuiltVoiceConfig.voiceName =
            (config.speakers.get ⟨i, hi⟩).voiceName) := by
  constructor
  · intro s hs
    simp [buildTtsRequest, buildSpeechConfig, hs]
  · intro hlen
    refine ⟨config.speakers.map (fun s => ⟨s.name, ⟨⟨s.voiceName⟩⟩⟩), ?_, ?_, ?_⟩
    · simp [buildTtsRequest, buildSpeechConfig, hlen]
    · simp
    · intro i hi
      have hmap : i < (config.speakers.map
          (fun s => (⟨s.name, ⟨⟨s.voiceName⟩⟩⟩ : SpeakerVoiceConfig))).length := by
        simpa using hi
      rw [List.getD_eq_getElem _ _ hmap]
      simp [List.getElem_map]

/-- Witness for C5: the two-speaker request yields a multi-speaker mapping
keyed by the exact display names. -/
theorem voice_config_spec_witness :
    ∃ entries,
      buildTtsRequest "hi" twoSpeakerConfig = some
        ⟨twoSpeakerConfig.ttsModel, "hi", SpeechConfig.multi entries,
          twoSpeakerConfig.temperature⟩ ∧
      entries.length = twoSpeakerConfig.speakers.length ∧
      ∀ i, (hi : i < twoSpeakerConfig.speakers.length) →
        (entries.getD i ⟨"", ⟨⟨""⟩⟩⟩).speaker =
          (twoSpeakerConfig.speakers.get ⟨i, hi⟩).name ∧
        (entries.getD i ⟨"", ⟨⟨""⟩⟩⟩).voiceConfig.prebuiltVoiceConfig.voiceName =
          (twoSpeakerConfig.speakers.get ⟨i, hi⟩).voiceName :=
  (voice_config_spec twoSpeakerConfig "hi").2 (by decide)

/-- Claim C7: when the active source signals its end event, the transport
declares natural completion — clearing the playing flag and resetting the
reported position and the paused offset to zero — exactly when the
reconstructed elapsed time (now - anchor) is within 0.2 s of the buffer
duration; outside that tolerance (a seek-induced stop) the handler changes
nothing, in particular it never resets the position. -/
theorem natural_completion_iff (st : TransportState) (now dur : ℚ) :
    (|now - st.startTime - dur| < 1/5 →
      onEnded st now dur =
        { st with isPlaying := false, pauseTime := 0, currentTime := 0 }) ∧
    (1/5 ≤ |now - st.startTime - dur| → onEnded st now dur = st) := by
  constructor
  · intro h
    rw [onEnded, if_pos h]
  · intro h
    rw [onEnded, if_neg (by exact not_lt.mpr h)]

/-- Witness for C7: an end event 0.1 s short of the duration resets the
transport, and one 3 s short leaves it untouched. -/
theorem natural_completion_iff_witness :
    onEnded ⟨true, 2, 5, 7, true⟩ 12 (101/10) = ⟨false, 2, 0, 0, true⟩ ∧
    onEnded ⟨true, 2, 5, 7, true⟩ 12 13 = ⟨true, 2, 5, 7, true⟩ :=
  ⟨(natural_completion_iff ⟨true, 2, 5, 7, true⟩ 12 (101/10)).1
      (by rw [abs_lt]; norm_num),
   (natural_completion_iff ⟨true, 2, 5, 7, true⟩ 12 13).2
      (by rw [le_abs]; right; norm_num)⟩

/-- Claim C8: the pause action is a no-op when the transport is not
playing; when playing it stops the active source and records
pausedOffset = now - anchor; in particular after playFrom 0 at clock c and
a pause at clock c + t the recorded offset is exactly t. -/
theorem pause_records_offset (st : TransportState) (now c t : ℚ) :
    (st.isPlaying = false → pause st now = st) ∧
    (st.isPlaying = true → pause st now =
      { st with
        isPlaying := false
        sourceActive := false
        pauseTime := now - st.startTime }) ∧
    (pause (playFrom st 0 c) (c + t)).pauseTime = t := by
  refine ⟨?_, ?_, ?_⟩
  · intro h
    rw [pause, if_neg (by simp [h])]
  · intro h
    rw [pause, if_pos h, togglePlayback, if_pos h]
  · rw [playFrom, pause, if_pos rfl, togglePlayback, if_pos rfl]
    simp

/-- Witness for C8: pausing 3 s after starting playback from offset 0 at
clock 10 records a paused offset of 3 s, and pausing a stopped transport
changes nothing. -/
theorem pause_records_offset_witness :
    pause ⟨false, 1, 2, 3, false⟩ 9 = ⟨false, 1, 2, 3, false⟩ ∧
    (pause (playFrom ⟨false, 1, 2, 3, false⟩ 0 10) (10 + 3)).pauseTime = 3 :=
  ⟨(pause_records_offset ⟨false, 1, 2, 3, false⟩ 9 0 0).1 rfl,
   (pause_records_offset ⟨false, 1, 2, 3, false⟩ 9 10 3).2.2⟩

/-- Claim C9: when the script step succeeds and the audio or decode step
throws, the run ends in ERROR with that failure message shown, the new
script has already replaced the transcript, and the previously decoded
audio buffer is left untouched. -/
theorem generate_failure_preserves_buffer (st : AppState) (topic script m : String)
    (audioRes : Except String String) (decodeRes : Except String DecodedAudioBuffer)
    (htopic : strTrim topic ≠ "")
    (hfail : audioRes = Except.error m ∨
      (∃ b64, audioRes = Except.ok b64 ∧ decodeRes = Except.error m)) :
    (handleGenerate st topic (Except.ok script) audioRes decodeRes).finalState.audioBuffer =
      st.audioBuffer ∧
    (handleGenerate st topic (Except.ok script) audioRes decodeRes).finalState.generatedScript =
      script ∧
    (handleGenerate st topic (Except.ok script) audioRes decodeRes).finalState.status =
      GenerationStatus.ERROR ∧
    (handleGenerate st topic (Except.ok script) audioRes decodeRes).finalState.error =
      some (shownError m) := by
  rcases hfail with h | ⟨b64, hok, hdec⟩
  · rw [handleGenerate, if_neg htopic]
    simp [h]
  · rw [handleGenerate, if_neg htopic]
    simp [hok, hdec]

/-- Witness for C9: a failing synthesis step after a successful script run
keeps the old buffer while the transcript is replaced and the status moves
to ERROR. -/
theorem generate_failure_preserves_buffer_witness :
    (handleGenerate
        ⟨GenerationStatus.COMPLETED, "old script", some ⟨24000, [[0]]⟩, false, none, false⟩
        "topic" (Except.ok "new script") (Except.error "boom")
        (Except.ok ⟨24000, [[0]]⟩)).finalState.audioBuffer = some ⟨24000, [[0]]⟩ ∧
    (handleGenerate
        ⟨GenerationStatus.COMPLETED, "old script", some ⟨24000, [[0]]⟩, false, none, false⟩
        "topic" (Except.ok "new script") (Except.error "boom")
        (Except.ok ⟨24000, [[0]]⟩)).finalState.generatedScript = "new script" ∧
    (handleGenerate
        ⟨GenerationStatus.COMPLETED, "old script", some ⟨24000, [[0]]⟩, false, none, false⟩
        "topic" (Except.ok "new script") (Except.error "boom")
        (Except.ok ⟨24000, [[0]]⟩)).finalState.status = GenerationStatus.ERROR ∧
    (handleGenerate
        ⟨GenerationStatus.COMPLETED, "old script", some ⟨24000, [[0]]⟩, false, none, false⟩
        "topic" (Except.ok "new script") (Except.error "boom")
        (Except.ok ⟨24000, [[0]]⟩)).finalState.error = some (shownError "boom") :=
  generate_failure_preserves_buffer
    ⟨GenerationStatus.COMPLETED, "old script", some ⟨24000, [[0]]⟩, false, none, false⟩
    "topic" "new script" "boom" (Except.error "boom") (Except.ok ⟨24000, [[0]]⟩)
    (by decide) (Or.inl rfl)

/-- Claim C10: a blank (empty or whitespace-only) topic issues no provider
call and only sets the user-visible error message; the status, transcript,
buffer and playing flag are all left unchanged. -/
theorem blank_topic_no_provider_call (st : AppState) (topic : String)
    (scriptRes audioRes : Except String String)
    (decodeRes : Except String DecodedAudioBuffer)
    (h : strTrim topic = "") :
    (handleGenerate st topic scriptRes audioRes decodeRes).scriptCalled = false ∧
    (handleGenerate st topic scriptRes audioRes decodeRes).audioCalled = false ∧
    (handleGenerate st topic scriptRes audioRes decodeRes).finalState =
      { st with error := some "Missing input vector: topic required." } := by
  rw [handleGenerate, if_pos h]
  exact ⟨rfl, rfl, rfl⟩

/-- Witness for C10: a whitespace-only topic leaves the state unchanged
apart from the error message and triggers no call. -/
theorem blank_topic_no_provider_call_witness :
    (handleGenerate ⟨GenerationStatus.IDLE, "", none, false, none, false⟩ "  "
        (Except.ok "s") (Except.ok "a") (Except.error "d")).scriptCalled = false ∧
    (handleGenerate ⟨GenerationStatus.IDLE, "", none, false, none, false⟩ "  "
        (Except.ok "s") (Except.ok "a") (Except.error "d")).audioCalled = false ∧
    (handleGenerate ⟨GenerationStatus.IDLE, "", none, false, none, false⟩ "  "
        (Except.ok "s") (Except.ok "a") (Except.error "d")).finalState =
      { status := GenerationStatus.IDLE, generatedScript := "", audioBuffer := none,
        isPlaying := false,
        error := some "Missing input vector: topic required.", sourceActive := false } :=
  blank_topic_no_provider_call ⟨GenerationStatus.IDLE, "", none, false, none, false⟩
    "  " (Except.ok "s") (Except.ok "a") (Except.error "d") (by decide)

lemma catMap_length (f : α → List β) (m : Nat) (hm : ∀ x, (f x).length = m) :
    ∀ l : List α, (catMap f l).length = m * l.length := by
  intro l
  induction l with
  | nil => simp [catMap]
  | cons x xs ih =>
    simp [catMap, ih, hm x]
    ring

lemma catMap_getD (f : α → List β) (m : Nat) (hm : ∀ x, (f x).length = m) (d : β) :
    ∀ (l : List α) (c j : Nat) (hc : c < l.length), j < m →
      (catMap f l).getD (m * c + j) d = (f (l.get ⟨c, hc⟩)).getD j d := by
  intro l
  induction l with
  | nil => intro c j hc; simp at hc
  | cons x xs ih =>
    intro c j hc hj
    cases c with
    | zero =>
      simp only [catMap, Nat.mul_zero, Nat.zero_add]
      rw [List.getD_append _ _ _ _ (by rw [hm x]; exact hj)]
      rfl
    | succ c' =>
      simp only [catMap]
      rw [List.getD_append_right _ _ _ _ (by rw [hm x]; nlinarith)]
      have harith : m * (c' + 1) + j - (f x).length = m * c' + j := by
        rw [hm x]; ring_nf; omega
      rw [harith]
      have hc' : c' < xs.length := by simpa using hc
      rw [ih c' j hc' hj]
      rfl

lemma getD_range_map (g : Nat → β) (n i : Nat) (d : β) (hi : i < n) :
    ((List.range n).map g).getD i d = g i := by
  rw [List.getD_eq_getElem _ _ (by simpa using hi)]
  simp [List.getElem_map, List.getElem_range]

lemma u16toI_roundtrip (q : ℤ) (h1 : -32768 ≤ q) (h2 : q ≤ 32767) :
    u16toI ((q % 65536).toNat % 256 + 256 * ((q % 65536).toNat / 256 % 256)) = q := by
  have hmod : (0 : ℤ) ≤ q % 65536 := Int.emod_nonneg q (by norm_num)
  have hmodlt : q % 65536 < 65536 := Int.emod_lt_of_pos q (by norm_num)
  have hv : ((q % 65536).toNat : ℤ) = q % 65536 := Int.toNat_of_nonneg hmod
  have hvlt : (q % 65536).toNat < 65536 := by omega
  have hcombine : (q % 65536).toNat % 256 + 256 * ((q % 65536).toNat / 256 % 256) =
      (q % 65536).toNat := by omega
  rw [hcombine, u16toI]
  split_ifs with h
  · omega
  · omega

lemma clampScale_eq (s : ℚ) (h1 : -1 ≤ s) (h2 : s ≤ 1) :
    clampScale s = round (s * 32767) := by
  rw [clampScale, min_eq_right h2, max_eq_right h1]

lemma clampScale_bounds (s : ℚ) (h1 : -1 ≤ s) (h2 : s ≤ 1) :
    -32768 ≤ clampScale s ∧ clampScale s ≤ 32767 := by
  rw [clampScale_eq s h1 h2]
  have habs := abs_sub_round (s * 32767)
  rw [abs_le] at habs
  obtain ⟨ha, hb⟩ := habs
  have hsle : s * 32767 ≤ 32767 := by nlinarith
  have hsge : (-32767 : ℚ) ≤ s * 32767 := by nlinarith
  constructor
  · have hq : (-32768 : ℚ) ≤ ((round (s * 32767) : ℤ) : ℚ) := by linarith
    exact_mod_cast hq
  · have hq : ((round (s * 32767) : ℤ) : ℚ) < 32768 := by linarith
    have : round (s * 32767) < (32768 : ℤ) := by exact_mod_cast hq
    omega

lemma clampScale_close (s : ℚ) (h1 : -1 ≤ s) (h2 : s ≤ 1) :
    |((clampScale s : ℤ) : ℚ) / 32767 - s| ≤ 1 / 32767 := by
  rw [clampScale_eq s h1 h2]
  have habs := abs_sub_round (s * 32767)
  have heq : ((round (s * 32767) : ℤ) : ℚ) / 32767 - s =
      -((s * 32767 - ((round (s * 32767) : ℤ) : ℚ)) / 32767) := by
    ring
  rw [heq, abs_neg, abs_div, abs_of_pos (by norm_num : (0 : ℚ) < 32767)]
  have hle : |s * 32767 - ((round (s * 32767) : ℤ) : ℚ)| ≤ 1 := by
    calc |s * 32767 - ((round (s * 32767) : ℤ) : ℚ)| ≤ 1 / 2 := habs
    _ ≤ 1 := by norm_num
  gcongr

lemma i16le_length (q : ℤ) : (i16le q).length = 2 := rfl

lemma frameBytes_length (buf : DecodedAudioBuffer) (k : Nat) :
    (frameBytes buf k).length = 2 * buf.channelData.length := by
  rw [frameBytes]
  exact catMap_length _ 2 (fun chl => i16le_length _) buf.channelData

/-- Claim C6: decoding the WAV byte stream produced by the encoder with a
conforming reader reproduces every sample of a 1- or 2-channel buffer
within the integer quantization error 1/32767, and preserves the sample
rate and the channel count. The hypotheses are the DecodedAudioBuffer
invariants: equal channel lengths and normalized samples in [-1, 1],
plus 32-bit bounds on the header fields. -/
theorem wav_round_trip (buf : DecodedAudioBuffer) (n : Nat)
    (hch : buf.channelData.length = 1 ∨ buf.channelData.length = 2)
    (hlen : ∀ chl ∈ buf.channelData, chl.length = n)
    (hrange : ∀ chl ∈ buf.channelData, ∀ s ∈ chl, -1 ≤ s ∧ s ≤ 1)
    (hrate : buf.sampleRate < 4294967296)
    (hsize : n * buf.channelData.length * 2 < 4294967296) :
    (wavDecode (audioBufferToWav buf)).sampleRate = buf.sampleRate ∧
    (wavDecode (audioBufferToWav buf)).channelData.length = buf.channelData.length ∧
    ∀ c, (hc : c < buf.channelData.length) → ∀ i, i < n →
      |((wavDecode (audioBufferToWav buf)).channelData.getD c []).getD i 0 -
        (buf.channelData.get ⟨c, hc⟩).getD i 0| ≤ 1 / 32767 := by
  have hch0 : 0 < buf.channelData.length := by rcases hch with h | h <;> omega
  have hch65536 : buf.channelData.length < 65536 := by rcases hch with h | h <;> omega
  have hn : numSamples buf = n := by
    rw [numSamples]
    cases hbd : buf.channelData with
    | nil => rw [hbd] at hch0; simp at hch0
    | cons x xs =>
      exact hlen x (by rw [hbd]; exact List.mem_cons_self x xs)
  have hsplit : audioBufferToWav buf =
      wavHeader buf.channelData.length buf.sampleRate (n * buf.channelData.length * 2) ++
        catMap (frameBytes buf) (List.range n) := by
    rw [audioBufferToWav, hn]
  have hhl : (wavHeader buf.channelData.length buf.sampleRate
      (n * buf.channelData.length * 2)).length = 44 := rfl
  have hread22 : readU16 (audioBufferToWav buf) 22 = buf.channelData.length := by
    rw [readU16, hsplit]
    rw [List.getD_append _ _ _ _ (by rw [hhl]; omega),
        List.getD_append _ _ _ _ (by rw [hhl]; omega)]
    show buf.channelData.length % 256 + 256 * (buf.channelData.length / 256 % 256) = _
    omega
  have hread24 : readU32 (audioBufferToWav buf) 24 = buf.sampleRate := by
    rw [readU32, hsplit]
    rw [List.getD_append _ _ _ _ (by rw [hhl]; omega),
        List.getD_append _ _ _ _ (by rw [hhl]; omega),
        List.getD_append _ _ _ _ (by rw [hhl]; omega),
        List.getD_append _ _ _ _ (by rw [hhl]; omega)]
    show buf.sampleRate % 256 + 256 * (buf.sampleRate / 256 % 256) +
      65536 * (buf.sampleRate / 65536 % 256) +
      16777216 * (buf.sampleRate / 16777216 % 256) = _
    omega
  have hread40 : readU32 (audioBufferToWav buf) 40 = n * buf.channelData.length * 2 := by
    rw [readU32, hsplit]
    rw [List.getD_append _ _ _ _ (by rw [hhl]; omega),
        List.getD_append _ _ _ _ (by rw [hhl]; omega),
        List.getD_append _ _ _ _ (by rw [hhl]; omega),
        List.getD_append _ _ _ _ (by rw [hhl]; omega)]
    show n * buf.channelData.length * 2 % 256 +
      256 * (n * buf.channelData.length * 2 / 256 % 256) +
      65536 * (n * buf.channelData.length * 2 / 65536 % 256) +
      16777216 * (n * buf.channelData.length * 2 / 16777216 % 256) = _
    omega
  have hframes : n * buf.channelData.length * 2 / (2 * buf.channelData.length) = n := by
    have h : n * buf.channelData.length * 2 = n * (2 * buf.channelData.length) := by ring
    rw [h]
    exact Nat.mul_div_cancel n (by omega)
  have hdec : wavDecode (audioBufferToWav buf) =
      { sampleRate := buf.sampleRate
        channelData := (List.range buf.channelData.length).map (fun c =>
          (List.range n).map (fun i =>
            (u16toI (readU16 (audioBufferToWav buf)
              (44 + 2 * (i * buf.channelData.length + c))) : ℚ) / 32767)) } := by
    rw [wavDecode, hread22, hread24, hread40, hframes]
  refine ⟨by rw [hdec], by rw [hdec]; simp, ?_⟩
  intro c hc i hi
  rw [hdec]
  dsimp only
  rw [getD_range_map _ _ _ _ hc, getD_range_map _ _ _ _ hi]
  have hdata : ∀ k, (audioBufferToWav buf).getD (44 + k) 0 =
      (catMap (frameBytes buf) (List.range n)).getD k 0 := by
    intro k
    conv_lhs => rw [hsplit]
    rw [List.getD_append_right _ _ _ _ (by rw [hhl]; omega)]
    rw [hhl]
    congr 1
    omega
  have hframe : ∀ j, j < 2 * buf.channelData.length →
      (catMap (frameBytes buf) (List.range n)).getD
        (2 * buf.channelData.length * i + j) 0 = (frameBytes buf i).getD j 0 := by
    intro j hj
    have hi' : i < (List.range n).length := by simpa using hi
    rw [catMap_getD (frameBytes buf) (2 * buf.channelData.length)
      (fun k => frameBytes_length buf k) 0 (List.range n) i j hi' hj]
    congr 1
    simp
  have hinner : ∀ b, b < 2 →
      (frameBytes buf i).getD (2 * c + b) 0 =
        (i16le (clampScale ((buf.channelData.get ⟨c, hc⟩).getD i 0))).getD b 0 := by
    intro b hb
    rw [frameBytes]
    rw [catMap_getD _ 2 (fun chl => i16le_length _) 0 buf.channelData c b hc hb]
  have hidx0 : 44 + 2 * (i * buf.channelData.length + c) =
      44 + (2 * buf.channelData.length * i + (2 * c + 0)) := by ring
  have hidx1 : 44 + 2 * (i * buf.channelData.length + c) + 1 =
      44 + (2 * buf.channelData.length * i + (2 * c + 1)) := by ring
  have hsbound : -1 ≤ (buf.channelData.get ⟨c, hc⟩).getD i 0 ∧
      (buf.channelData.get ⟨c, hc⟩).getD i 0 ≤ 1 := by
    have hmem : buf.channelData.get ⟨c, hc⟩ ∈ buf.channelData := List.get_mem _ _ hc
    have hlc : (buf.channelData.get ⟨c, hc⟩).length = n := hlen _ hmem
    have hsi : (buf.channelData.get ⟨c, hc⟩).getD i 0 ∈ buf.channelData.get ⟨c, hc⟩ := by
      rw [List.getD_eq_getElem _ _ (by omega)]
      exact List.getElem_mem _
    exact hrange _ hmem _ hsi
  have hqb := clampScale_bounds _ hsbound.1 hsbound.2
  have hread : readU16 (audioBufferToWav buf)
      (44 + 2 * (i * buf.channelData.length + c)) =
      ((clampScale ((buf.channelData.get ⟨c, hc⟩).getD i 0)) % 65536).toNat % 256 +
        256 * (((clampScale ((buf.channelData.get ⟨c, hc⟩).getD i 0)) % 65536).toNat
          / 256 % 256) := by
    rw [readU16, hidx1, hidx0, hdata, hdata, hframe (2 * c + 0) (by omega),
        hframe (2 * c + 1) (by omega), hinner 0 (by omega), hinner 1 (by omega)]
    rfl
  rw [hread, u16toI_roundtrip _ hqb.1 hqb.2]
  exact clampScale_close _ hsbound.1 hsbound.2

/-- Witness for C6: a two-channel buffer with one sample per channel
round-trips within 1/32767. -/
theorem wav_round_trip_witness :
    (wavDecode (audioBufferToWav ⟨24000, [[0], [1]]⟩)).sampleRate =
      (⟨24000, [[0], [1]]⟩ : DecodedAudioBuffer).sampleRate ∧
    (wavDecode (audioBufferToWav ⟨24000, [[0], [1]]⟩)).channelData.length =
      (⟨24000, [[0], [1]]⟩ : DecodedAudioBuffer).channelData.length ∧
    ∀ c, (hc : c < (⟨24000, [[0], [1]]⟩ : DecodedAudioBuffer).channelData.length) →
      ∀ i, i < 1 →
      |((wavDecode (audioBufferToWav ⟨24000, [[0], [1]]⟩)).channelData.getD c []).getD i 0 -
        ((⟨24000, [[0], [1]]⟩ : DecodedAudioBuffer).channelData.get ⟨c, hc⟩).getD i 0| ≤
        1 / 32767 :=
  wav_round_trip ⟨24000, [[0], [1]]⟩ 1 (Or.inr rfl) (by decide) (by decide)
    (by decide) (by decide)
